import Mathlib

/-!
Shallow embedding of the note-taking backend (src/backend/api/views.py) of
FableV25/login: the data model, the response envelope, and the five request
handlers (ListNotes, CreateNote, DeleteNote, Register, GetCurrentUser),
together with theorems settling the specification claims.

The store is a list of note records plus a list of registered principals;
Django model ids are modelled as Nat, timestamps as Nat.  Python exceptions
are modelled by an explicit `Exc` type threaded through `Except`, and the
`try ... except Exception` boundary every handler wraps its body in is the
function `handlerBoundary`.
-/

namespace NotesApp

/-- JSON-like values: the payload carried in the `data` field of a response
envelope (serializer output is a JSON object / array of objects). -/
inductive JVal where
  | s (v : String)
  | n (v : Nat)
  | b (v : Bool)
  | arr (items : List JVal)
  | obj (fields : List (String × JVal))

/-- Field lookup on a JSON object value. -/
def JVal.field (v : JVal) (key : String) : Option JVal :=
  match v with
  | .obj fields => fields.lookup key
  | _ => none

/-- An authenticated principal as exposed by the identity layer
(django.contrib.auth.models.User): id, username, is_staff, is_superuser. -/
structure Principal where
  id : Nat
  username : String
  is_staff : Bool
  is_superuser : Bool
deriving DecidableEq

/-- A note record (api/models.py, described by spec section 3): id (pk),
title, content, author (foreign key, here the joined principal record),
created_at (server-assigned timestamp). -/
structure Note where
  id : Nat
  title : String
  content : String
  author : Principal
  created_at : Nat
deriving DecidableEq

/-- The persistence state: the note table, the user table, and the next
auto-assigned primary keys. -/
structure Store where
  notes : List Note
  users : List Principal
  nextNoteId : Nat
  nextUserId : Nat

/-- The uniform response envelope (spec section 3 ResponseEnvelope): status,
message, optional data payload, optional field-to-reasons validation map. -/
structure Envelope where
  status : String
  message : String
  data : Option JVal
  errors : Option (List (String × List String))

/-- An HTTP response: status code plus envelope body. -/
structure Response where
  code : Nat
  env : Envelope

/-- Python exceptions that can arise inside a handler body.  `http404` is
django.http.Http404 as raised by DRF get_object_or_404; `doesNotExist` is
the model exception Note.DoesNotExist; `other` is any other exception. -/
inductive Exc where
  | http404 (msg : String)
  | doesNotExist (msg : String)
  | other (msg : String)

/-- What str(e) yields for an exception: its message. -/
def Exc.message : Exc → String
  | .http404 m => m
  | .doesNotExist m => m
  | .other m => m

/-- The `try ... except Exception as e` boundary wrapped around every handler
body in views.py: a body that raises is caught and turned into a 500 error
envelope whose message is str(e); the store is left as it was. -/
def handlerBoundary (s : Store) (body : Except Exc (Store × Response)) :
    Store × Response :=
  match body with
  | .ok r => r
  | .error e => (s, ⟨500, ⟨"error", e.message, none, none⟩⟩)

/-- Modelled from the spec: src/backend/api/serializers.py is not among the
repository files; spec section 4.2 (ListNotes) says each serialized note
exposes id, title, content, author_username, author_id, created_at, with
author_username and author_id joined from the author relation. -/
def serializeNote (note : Note) : JVal :=
  .obj [("id", .n note.id), ("title", .s note.title),
        ("content", .s note.content),
        ("author_username", .s note.author.username),
        ("author_id", .n note.author.id),
        ("created_at", .n note.created_at)]

/-- Modelled from the spec: NoteSerializer validation (serializers.py is not
among the repository files); spec section 4.2 says CreateNote validates
title non-empty and at most 100 characters, content non-empty, and failure
produces a field-to-reasons map. -/
def noteValidationErrors (title content : String) :
    List (String × List String) :=
  (if title.length = 0 then
    [("title", ["This field may not be blank."])]
  else if title.length > 100 then
    [("title", ["Ensure this field has no more than 100 characters."])]
  else [])
  ++ (if content.length = 0 then
    [("content", ["This field may not be blank."])]
  else [])

/-- The queryset ordering used by NoteListCreate.get_queryset:
order_by minus-created_at, i.e. created_at descending. -/
def createdAtDesc (a b : Note) : Prop := b.created_at ≤ a.created_at

instance : DecidableRel createdAtDesc := fun a b =>
  Nat.decLe b.created_at a.created_at

instance : IsTotal Note createdAtDesc :=
  ⟨fun a b => Nat.le_total b.created_at a.created_at⟩

instance : IsTrans Note createdAtDesc :=
  ⟨fun _ _ _ hab hbc => Nat.le_trans hbc hab⟩

/-- NoteListCreate.get_queryset: all notes, ordered by created_at
descending (views.py line 21). -/
def NoteListCreate.get_queryset (s : Store) : List Note :=
  List.insertionSort createdAtDesc s.notes

/-- NoteListCreate.list (views.py lines 27 to 43): serialize the queryset and
wrap it in a success envelope; unexpected exceptions become a 500 error
envelope via the boundary. -/
def NoteListCreate.list (s : Store) : Store × Response :=
  handlerBoundary s (.ok (s,
    ⟨200, ⟨"success", "Notes retrieved successfully.",
      some (.arr ((NoteListCreate.get_queryset s).map serializeNote)),
      none⟩⟩))

/-- NoteListCreate.create (views.py lines 59 to 85): validate the payload; on
success persist a note authored by the requesting principal and return 201
with the serialized note; on validation failure return 400 with the errors
map; the whole body sits inside the 500 boundary. -/
def NoteListCreate.create (p : Principal) (title content : String)
    (now : Nat) (s : Store) : Store × Response :=
  handlerBoundary s (.ok (
    let errs := noteValidationErrors title content
    if errs.isEmpty then
      let note : Note := ⟨s.nextNoteId, title, content, p, now⟩
      ({ s with notes := s.notes ++ [note], nextNoteId := s.nextNoteId + 1 },
        ⟨201, ⟨"success", "Note created successfully.",
          some (serializeNote note), none⟩⟩)
    else
      (s, ⟨400, ⟨"error", "Invalid data provided.", none, some errs⟩⟩)))

/-- NoteDelete.get_queryset (views.py lines 91 to 99): all notes for an
elevated principal, the empty queryset otherwise. -/
def NoteDelete.get_queryset (p : Principal) (s : Store) : List Note :=
  if p.is_staff || p.is_superuser then s.notes else []

/-- DRF GenericAPIView.get_object: filter the queryset by the pk from the
URL; when no record matches, rest_framework.generics.get_object_or_404
raises django.http.Http404 with message "No Note matches the given query."
(it never raises Note.DoesNotExist). -/
def NoteDelete.get_object (p : Principal) (noteId : Nat) (s : Store) :
    Except Exc Note :=
  match (NoteDelete.get_queryset p s).find? (fun m => m.id == noteId) with
  | some note => .ok note
  | none => .error (.http404 "No Note matches the given query.")

/-- DRF DestroyAPIView.destroy as invoked by super().destroy (views.py line
130): fetch the object again via get_object and delete the row with that
pk; the repository code discards the resulting 204 response, so only the
store effect and a possible exception matter. -/
def NoteDelete.superDestroy (p : Principal) (noteId : Nat) (s : Store) :
    Except Exc Store :=
  match NoteDelete.get_object p noteId s with
  | .ok _ => .ok { s with notes := s.notes.filter (fun m => m.id != noteId) }
  | .error e => .error e

/-- The snapshot of a note taken before deletion (views.py lines 116 to 121):
id, title and the author username. -/
structure NoteInfo where
  id : Nat
  title : String
  author : String
deriving DecidableEq

/-- The snapshot serialized into the deleted_note payload. -/
def serializeNoteInfo (info : NoteInfo) : JVal :=
  .obj [("id", .n info.id), ("title", .s info.title),
        ("author", .s info.author)]

/-- The 200 success response of a completed deletion (views.py lines 133 to
139), message and deleted_note payload built from the snapshot. -/
def deletedResponse (info : NoteInfo) : Response :=
  ⟨200, ⟨"success",
    "Note '" ++ info.title ++ ",' by: '" ++ info.author
      ++ "' has been deleted successfully.",
    some (.obj [("deleted_note", serializeNoteInfo info)]), none⟩⟩

/-- The body of NoteDelete.destroy (views.py lines 104 to 139): the
authorization check, then an inner try whose except clause catches only
Note.DoesNotExist (so the Http404 raised by get_object propagates), then
super().destroy and the success response.  Raised exceptions escape as
`.error` for the outer boundary. -/
def NoteDelete.destroyTry (p : Principal) (noteId : Nat) (s : Store) :
    Except Exc (Store × Response) :=
  if !(p.is_staff || p.is_superuser) then
    .ok (s, ⟨403, ⟨"error", "Only administrators can delete notes.",
      none, none⟩⟩)
  else
    match NoteDelete.get_object p noteId s with
    | .ok note =>
      let info : NoteInfo := ⟨note.id, note.title, note.author.username⟩
      match NoteDelete.superDestroy p noteId s with
      | .ok s2 => .ok (s2, deletedResponse info)
      | .error e => .error e
    | .error (.doesNotExist _) =>
      .ok (s, ⟨404, ⟨"error", "Note not found.", none, none⟩⟩)
    | .error e => .error e

/-- NoteDelete.destroy: the body inside the outer except-Exception boundary
(views.py lines 104 to 146). -/
def NoteDelete.destroy (p : Principal) (noteId : Nat) (s : Store) :
    Store × Response :=
  handlerBoundary s (NoteDelete.destroyTry p noteId s)

/-- Modelled from the spec: UserSerializer validation (serializers.py is not
among the repository files); spec section 3 says the username is unique,
required and non-blank, the password required, and a duplicate username
registration fails with 400. -/
def userValidationErrors (username password : String) (s : Store) :
    List (String × List String) :=
  (if username.length = 0 then
    [("username", ["This field may not be blank."])]
  else if s.users.any (fun u => u.username == username) then
    [("username", ["A user with that username already exists."])]
  else [])
  ++ (if password.length = 0 then
    [("password", ["This field may not be blank."])]
  else [])

/-- CreateUserView.create, the Register handler (views.py lines 148 to 181):
validate, persist the principal, return 201 with id and username (password
excluded); validation failure gives 400 with the errors map; the body sits
inside the 500 boundary. -/
def CreateUserView.create (username password : String) (s : Store) :
    Store × Response :=
  handlerBoundary s (.ok (
    let errs := userValidationErrors username password s
    if errs.isEmpty then
      let u : Principal := ⟨s.nextUserId, username, false, false⟩
      ({ s with users := s.users ++ [u], nextUserId := s.nextUserId + 1 },
        ⟨201, ⟨"success", "User registered successfully.",
          some (.obj [("id", .n u.id), ("username", .s u.username)]),
          none⟩⟩)
    else
      (s, ⟨400, ⟨"error", "Invalid registration data.", none, some errs⟩⟩)))

/-- CurrentUserView.get, the GetCurrentUser handler (views.py lines 186 to
201): a success envelope with id, username, is_admin computed as is_staff
or is_superuser, is_staff and is_superuser; the store is untouched. -/
def CurrentUserView.get (p : Principal) (s : Store) : Store × Response :=
  handlerBoundary s (.ok (s,
    ⟨200, ⟨"success", "User information retrieved successfully.",
      some (.obj [("id", .n p.id), ("username", .s p.username),
        ("is_admin", .b (p.is_staff || p.is_superuser)),
        ("is_staff", .b p.is_staff), ("is_superuser", .b p.is_superuser)]),
      none⟩⟩))

/-- The envelope discipline of spec section 3: status is exactly success or
error, a data payload appears only on success, an errors map only on a
validation failure (HTTP 400), and never both at once.  The message field
is part of the Envelope structure, hence always present. -/
def envelopeOk (r : Response) : Prop :=
  (r.env.status = "success" ∨ r.env.status = "error")
  ∧ (r.env.data ≠ none → r.env.status = "success")
  ∧ (r.env.errors ≠ none → r.env.status = "error" ∧ r.code = 400)
  ∧ (r.env.data = none ∨ r.env.errors = none)

/-- A sample non-elevated principal, used to instantiate witnesses. -/
def alicePrincipal : Principal := ⟨5, "alice", false, false⟩

/-- A sample staff (elevated, not superuser) principal. -/
def adminPrincipal : Principal := ⟨1, "admin", true, false⟩

/-- A sample note authored by the non-elevated principal. -/
def sampleNote1 : Note := ⟨1, "Note 1", "c1", alicePrincipal, 10⟩

/-- A sample note authored by the staff principal. -/
def sampleNote2 : Note := ⟨2, "Note 2", "c2", adminPrincipal, 20⟩

/-- A sample store holding the two notes and the two principals. -/
def sampleStore : Store :=
  ⟨[sampleNote1, sampleNote2], [alicePrincipal, adminPrincipal], 3, 3⟩

/-- In a list whose ids contain nid exactly once, filtering the id away
shortens the list by exactly one. -/
lemma length_filter_ne_of_countP_eq_one : ∀ {l : List Note} {nid : Nat},
    l.countP (fun m => m.id == nid) = 1 →
    (l.filter (fun m => m.id != nid)).length + 1 = l.length := by
  intro l nid h
  induction l with
  | nil => simp at h
  | cons a t ih =>
    by_cases ha : (a.id == nid) = true
    · have haeq : a.id = nid := by simpa using ha
      have ht : t.countP (fun m => m.id == nid) = 0 := by
        rw [List.countP_cons, if_pos ha] at h
        omega
      have hall : t.filter (fun m => m.id != nid) = t := by
        rw [List.filter_eq_self]
        intro x hx
        have := List.countP_eq_zero.mp ht x hx
        simpa using this
      simp [List.filter_cons, haeq, hall]
    · rw [List.countP_cons, if_neg ha, Nat.add_zero] at h
      have hkeep : (a.id != nid) = true := by simpa using ha
      have hih := ih h
      rw [List.filter_cons, if_pos hkeep]
      simp only [List.length_cons]
      omega

/-- A member id of a list with pairwise-distinct ids is counted exactly
once: the primary-key uniqueness of the note table. -/
lemma countP_id_eq_one {l : List Note} {nid : Nat} {note : Note}
    (hmem : note ∈ l) (hid : note.id = nid)
    (hnodup : (l.map Note.id).Nodup) :
    l.countP (fun m => m.id == nid) = 1 := by
  have hm : nid ∈ l.map Note.id := by
    have := List.mem_map_of_mem Note.id hmem
    rwa [hid] at this
  have h1 : (l.map Note.id).count nid = 1 :=
    List.count_eq_one_of_mem hnodup hm
  rw [List.count, List.countP_map] at h1
  exact h1

/-- Success envelopes carry data and no errors map. -/
lemma envelopeOk_success (c : Nat) (m : String) (d : Option JVal) :
    envelopeOk ⟨c, ⟨"success", m, d, none⟩⟩ :=
  ⟨Or.inl rfl, fun _ => rfl, fun h => absurd rfl h, Or.inr rfl⟩

/-- Plain error envelopes (401, 403, 404, 500) carry neither data nor an
errors map. -/
lemma envelopeOk_plain_error (c : Nat) (m : String) :
    envelopeOk ⟨c, ⟨"error", m, none, none⟩⟩ :=
  ⟨Or.inr rfl, fun h => absurd rfl h, fun h => absurd rfl h, Or.inl rfl⟩

/-- Validation-failure envelopes are 400 errors carrying an errors map and
no data. -/
lemma envelopeOk_validation_error (m : String)
    (errs : List (String × List String)) :
    envelopeOk ⟨400, ⟨"error", m, none, some errs⟩⟩ :=
  ⟨Or.inr rfl, fun h => absurd rfl h, fun _ => ⟨rfl, rfl⟩, Or.inl rfl⟩

/-- A deletion request never adds notes: every note of the post-state store
was already in the pre-state store, unchanged (author included). -/
lemma destroy_notes_subset (q : Principal) (nid : Nat) (s3 : Store) :
    ∀ m ∈ (NoteDelete.destroy q nid s3).1.notes, m ∈ s3.notes := by
  intro m hm
  by_cases hq : (q.is_staff || q.is_superuser) = true
  · rcases hf : (NoteDelete.get_queryset q s3).find? (fun mm => mm.id == nid)
      with _ | note
    · simpa [NoteDelete.destroy, NoteDelete.destroyTry, NoteDelete.get_object,
        handlerBoundary, hq, hf] using hm
    · simp [NoteDelete.destroy, NoteDelete.destroyTry, NoteDelete.get_object,
        NoteDelete.superDestroy, handlerBoundary, List.mem_filter, hq, hf] at hm
      exact hm.1
  · have hq2 : (q.is_staff || q.is_superuser) = false := by simpa using hq
    simpa [NoteDelete.destroy, NoteDelete.destroyTry, handlerBoundary, hq2]
      using hm

/-- After a create request every note of the store either predates the
request (unchanged, author included) or is the new note authored by the
requesting principal. -/
lemma create_notes_author (q : Principal) (t c : String) (tm : Nat)
    (s3 : Store) :
    ∀ m ∈ (NoteListCreate.create q t c tm s3).1.notes,
      m ∈ s3.notes ∨ m.author = q := by
  intro m hm
  by_cases h : (noteValidationErrors t c).isEmpty
  · simp [NoteListCreate.create, handlerBoundary, h] at hm
    rcases hm with hm | hm
    · exact Or.inl hm
    · right
      rw [hm]
  · simp [NoteListCreate.create, handlerBoundary, h] at hm
    exact Or.inl hm

/-- C1: a request DeleteNote(principal, noteId) by an authenticated but
non-elevated principal (is_staff and is_superuser both false) returns the
403 error envelope with message "Only administrators can delete notes."
and leaves the store untouched; the right-hand side does not depend on the
store contents, so the note is never looked up and the same 403 comes back
whether or not a note with noteId exists, the note count unchanged. -/
theorem delete_by_non_admin_forbidden (p : Principal) (noteId : Nat)
    (s : Store) (h1 : p.is_staff = false) (h2 : p.is_superuser = false) :
    NoteDelete.destroy p noteId s
      = (s, ⟨403, ⟨"error", "Only administrators can delete notes.",
          none, none⟩⟩) := by
  simp [NoteDelete.destroy, NoteDelete.destroyTry, handlerBoundary, h1, h2]

/-- Witness for C1: the regular user deleting an existing note of the
two-note sample store gets the 403 envelope and the store keeps both
notes. -/
theorem delete_by_non_admin_forbidden_witness :
    NoteDelete.destroy alicePrincipal 1 sampleStore
      = (sampleStore, ⟨403, ⟨"error", "Only administrators can delete notes.",
          none, none⟩⟩) :=
  delete_by_non_admin_forbidden alicePrincipal 1 sampleStore rfl rfl

/-- C2, evaluation at the failing input: an elevated principal deleting the
absent id 9999 gets HTTP 500 with message "No Note matches the given
query.", not the 404 "Note not found." envelope the claim (and the
repository test suite) state: DRF get_object raises Http404, the except
clause catches only Note.DoesNotExist, so the generic except-Exception
boundary answers instead.  The store is unchanged. -/
theorem delete_absent_note_admin_returns_500 :
    NoteDelete.destroy adminPrincipal 9999 sampleStore
      = (sampleStore, ⟨500, ⟨"error", "No Note matches the given query.",
          none, none⟩⟩) := rfl

/-- C3: an elevated principal deleting an existing note (ids unique, as for
a primary key) gets the 200 success envelope whose data holds the
deleted_note snapshot of id, title and author username taken before
deletion; the note count drops by exactly one and no note with that id is
findable afterwards. -/
theorem delete_existing_note_admin (p : Principal) (noteId : Nat) (s : Store)
    (note : Note) (hadmin : (p.is_staff || p.is_superuser) = true)
    (hfind : s.notes.find? (fun m => m.id == noteId) = some note)
    (hnodup : (s.notes.map Note.id).Nodup) :
    NoteDelete.destroy p noteId s
      = ({ s with notes := s.notes.filter (fun m => m.id != noteId) },
         deletedResponse ⟨note.id, note.title, note.author.username⟩)
    ∧ (s.notes.filter (fun m => m.id != noteId)).length + 1 = s.notes.length
    ∧ (NoteDelete.destroy p noteId s).1.notes.find?
        (fun m => m.id == noteId) = none := by
  have hq : NoteDelete.get_queryset p s = s.notes := by
    simp [NoteDelete.get_queryset, hadmin]
  have hobj : NoteDelete.get_object p noteId s = .ok note := by
    simp [NoteDelete.get_object, hq, hfind]
  have hdes : NoteDelete.destroy p noteId s
      = ({ s with notes := s.notes.filter (fun m => m.id != noteId) },
         deletedResponse ⟨note.id, note.title, note.author.username⟩) := by
    simp [NoteDelete.destroy, NoteDelete.destroyTry, handlerBoundary, hadmin,
      hobj, NoteDelete.superDestroy]
  have hpred := List.find?_some hfind
  have hid : note.id = noteId := by simpa using hpred
  have hcount : s.notes.countP (fun m => m.id == noteId) = 1 :=
    countP_id_eq_one (List.mem_of_find?_eq_some hfind) hid hnodup
  refine ⟨hdes, length_filter_ne_of_countP_eq_one hcount, ?_⟩
  rw [hdes]
  simp [List.find?_eq_none, List.mem_filter]

/-- Witness for C3: the staff principal deleting note 1 of the two-note
sample store gets the snapshot success envelope, the count drops from two
to one, and id 1 is gone. -/
theorem delete_existing_note_admin_witness :
    (NoteDelete.destroy adminPrincipal 1 sampleStore
      = ({ sampleStore with
            notes := sampleStore.notes.filter (fun m => m.id != 1) },
         deletedResponse ⟨sampleNote1.id, sampleNote1.title,
           sampleNote1.author.username⟩))
    ∧ (sampleStore.notes.filter (fun m => m.id != 1)).length + 1
        = sampleStore.notes.length
    ∧ (NoteDelete.destroy adminPrincipal 1 sampleStore).1.notes.find?
        (fun m => m.id == 1) = none :=
  delete_existing_note_admin adminPrincipal 1 sampleStore sampleNote1
    rfl rfl (by decide)

/-- C4: an authenticated create request with an empty title persists
nothing (the store comes back unchanged) and yields the 400 error envelope
with status error and an errors map whose title entry reports the blank
field, whatever the content, principal, timestamp and store. -/
theorem create_empty_title_rejected (p : Principal) (content : String)
    (now : Nat) (s : Store) :
    NoteListCreate.create p "" content now s
      = (s, ⟨400, ⟨"error", "Invalid data provided.", none,
          some (noteValidationErrors "" content)⟩⟩)
    ∧ (noteValidationErrors "" content).lookup "title"
        = some ["This field may not be blank."] := by
  constructor
  · simp [NoteListCreate.create, handlerBoundary, noteValidationErrors]
  · simp [noteValidationErrors, List.lookup]

/-- C5: an authenticated list request returns the 200 success envelope
holding the serialization of every note of the store (the queryset is a
permutation of the store, so nothing is filtered out), the store is
untouched, and the returned order is non-increasing in created_at. -/
theorem list_notes_returns_all_sorted (s : Store) :
    NoteListCreate.list s
      = (s, ⟨200, ⟨"success", "Notes retrieved successfully.",
          some (.arr ((NoteListCreate.get_queryset s).map serializeNote)),
          none⟩⟩)
    ∧ (NoteListCreate.get_queryset s).Perm s.notes
    ∧ (NoteListCreate.get_queryset s).Pairwise
        (fun a b => b.created_at ≤ a.created_at) := by
  refine ⟨rfl, List.perm_insertionSort _ _, ?_⟩
  exact List.sorted_insertionSort createdAtDesc s.notes

/-- C6: GetCurrentUser answers 200 success with id, username, is_staff and
is_superuser taken from the principal and is_admin computed as is_staff or
is_superuser; whenever the data payload is an object, its is_admin field
is that disjunction, which is true as soon as is_staff is true even with
is_superuser false. -/
theorem current_user_success_is_admin (p : Principal) (s : Store) :
    CurrentUserView.get p s
      = (s, ⟨200, ⟨"success", "User information retrieved successfully.",
          some (.obj [("id", .n p.id), ("username", .s p.username),
            ("is_admin", .b (p.is_staff || p.is_superuser)),
            ("is_staff", .b p.is_staff),
            ("is_superuser", .b p.is_superuser)]), none⟩⟩)
    ∧ (∀ d, (CurrentUserView.get p s).2.env.data = some d →
        d.field "is_admin" = some (.b (p.is_staff || p.is_superuser)))
    ∧ (p.is_staff = true → (p.is_staff || p.is_superuser) = true) := by
  refine ⟨rfl, ?_, fun h => by simp [h]⟩
  intro d hd
  have h2 : JVal.obj [("id", .n p.id), ("username", .s p.username),
      ("is_admin", .b (p.is_staff || p.is_superuser)),
      ("is_staff", .b p.is_staff),
      ("is_superuser", .b p.is_superuser)] = d := by
    simpa [CurrentUserView.get, handlerBoundary] using hd
  rw [← h2]
  rfl

/-- C7: creating a valid note appends a note authored by the requesting
principal, whose serialization (author_username and author_id joined from
that principal) appears in the list produced right after; moreover no
operation reassigns an author: deletion only keeps pre-existing note
records, and creation only adds a note authored by its requester. -/
theorem create_then_list_roundtrip (p : Principal) (title content : String)
    (now : Nat) (s : Store)
    (hvalid : noteValidationErrors title content = []) :
    (NoteListCreate.create p title content now s).1.notes
        = s.notes ++ [⟨s.nextNoteId, title, content, p, now⟩]
    ∧ serializeNote ⟨s.nextNoteId, title, content, p, now⟩
        ∈ (NoteListCreate.get_queryset
            (NoteListCreate.create p title content now s).1).map serializeNote
    ∧ (serializeNote ⟨s.nextNoteId, title, content, p, now⟩).field
        "author_username" = some (.s p.username)
    ∧ (serializeNote ⟨s.nextNoteId, title, content, p, now⟩).field
        "author_id" = some (.n p.id)
    ∧ (∀ q nid s3, ∀ m ∈ (NoteDelete.destroy q nid s3).1.notes, m ∈ s3.notes)
    ∧ (∀ q t c tm s3, ∀ m ∈ (NoteListCreate.create q t c tm s3).1.notes,
        m ∈ s3.notes ∨ m.author = q) := by
  have hnotes : (NoteListCreate.create p title content now s).1.notes
      = s.notes ++ [⟨s.nextNoteId, title, content, p, now⟩] := by
    simp [NoteListCreate.create, handlerBoundary, hvalid]
  refine ⟨hnotes, ?_, rfl, rfl, destroy_notes_subset, create_notes_author⟩
  apply List.mem_map_of_mem
  rw [NoteListCreate.get_queryset, List.mem_insertionSort, hnotes]
  exact List.mem_append_right _ (List.mem_singleton_self _)

/-- Witness for C7: the regular user creates a valid note in the sample
store and the created item, carrying her username and id, shows up in the
subsequent listing. -/
theorem create_then_list_roundtrip_witness :
    (NoteListCreate.create alicePrincipal "Hello" "World" 30
        sampleStore).1.notes
        = sampleStore.notes
          ++ [⟨sampleStore.nextNoteId, "Hello", "World", alicePrincipal, 30⟩]
    ∧ serializeNote ⟨sampleStore.nextNoteId, "Hello", "World", alicePrincipal,
        30⟩
        ∈ (NoteListCreate.get_queryset
            (NoteListCreate.create alicePrincipal "Hello" "World" 30
              sampleStore).1).map serializeNote
    ∧ (serializeNote ⟨sampleStore.nextNoteId, "Hello", "World", alicePrincipal,
        30⟩).field "author_username" = some (.s alicePrincipal.username)
    ∧ (serializeNote ⟨sampleStore.nextNoteId, "Hello", "World", alicePrincipal,
        30⟩).field "author_id" = some (.n alicePrincipal.id)
    ∧ (∀ q nid s3, ∀ m ∈ (NoteDelete.destroy q nid s3).1.notes, m ∈ s3.notes)
    ∧ (∀ q t c tm s3, ∀ m ∈ (NoteListCreate.create q t c tm s3).1.notes,
        m ∈ s3.notes ∨ m.author = q) :=
  create_then_list_roundtrip alicePrincipal "Hello" "World" 30 sampleStore
    (by decide)

/-- C8: a handler body that raises is answered by the except-Exception
boundary with a 500 error envelope whose message is the exception message,
the store as it was, and no propagation; the delete handler runs inside
that boundary, and an actually raised exception (the Http404 of a missing
note under an elevated principal) surfaces exactly this way. -/
theorem unexpected_exception_yields_500 (s : Store)
    (body : Except Exc (Store × Response)) (e : Exc) (h : body = .error e) :
    handlerBoundary s body = (s, ⟨500, ⟨"error", e.message, none, none⟩⟩)
    ∧ (∀ q noteId s2, NoteDelete.destroy q noteId s2
        = handlerBoundary s2 (NoteDelete.destroyTry q noteId s2))
    ∧ (∀ q noteId s2, (q.is_staff || q.is_superuser) = true →
        s2.notes.find? (fun m => m.id == noteId) = none →
        NoteDelete.destroy q noteId s2
          = (s2, ⟨500, ⟨"error", "No Note matches the given query.",
              none, none⟩⟩)) := by
  subst h
  refine ⟨rfl, fun _ _ _ => rfl, ?_⟩
  intro q noteId s2 hq hfind
  simp [NoteDelete.destroy, NoteDelete.destroyTry, NoteDelete.get_object,
    NoteDelete.get_queryset, handlerBoundary, Exc.message, hq, hfind]

/-- Witness for C8: a store failure raised inside a handler body comes back
as the 500 envelope carrying its message, the sample store untouched. -/
theorem unexpected_exception_yields_500_witness :
    handlerBoundary sampleStore (.error (.other "database unavailable"))
      = (sampleStore, ⟨500, ⟨"error", "database unavailable", none, none⟩⟩)
    ∧ (∀ q noteId s2, NoteDelete.destroy q noteId s2
        = handlerBoundary s2 (NoteDelete.destroyTry q noteId s2))
    ∧ (∀ q noteId s2, (q.is_staff || q.is_superuser) = true →
        s2.notes.find? (fun m => m.id == noteId) = none →
        NoteDelete.destroy q noteId s2
          = (s2, ⟨500, ⟨"error", "No Note matches the given query.",
              none, none⟩⟩)) :=
  unexpected_exception_yields_500 sampleStore
    (.error (.other "database unavailable")) (.other "database unavailable")
    rfl

/-- C9: every response of the five handlers (list, create, delete, register,
current user) satisfies the envelope discipline: status exactly success or
error, message always present, data only on success, an errors map only on
a 400 validation error, and never data and errors together. -/
theorem envelope_invariant :
    (∀ s, envelopeOk (NoteListCreate.list s).2)
    ∧ (∀ p title content now s,
        envelopeOk (NoteListCreate.create p title content now s).2)
    ∧ (∀ p noteId s, envelopeOk (NoteDelete.destroy p noteId s).2)
    ∧ (∀ username password s,
        envelopeOk (CreateUserView.create username password s).2)
    ∧ (∀ p s, envelopeOk (CurrentUserView.get p s).2) := by
  refine ⟨fun s => envelopeOk_success _ _ _, ?_, ?_, ?_,
    fun p s => envelopeOk_success _ _ _⟩
  · intro p title content now s
    by_cases h : (noteValidationErrors title content).isEmpty
    · simp only [NoteListCreate.create, handlerBoundary, if_pos h]
      exact envelopeOk_success _ _ _
    · simp only [NoteListCreate.create, handlerBoundary, if_neg h]
      exact envelopeOk_validation_error _ _
  · intro p noteId s
    by_cases hq : (p.is_staff || p.is_superuser) = true
    · rcases hf : (NoteDelete.get_queryset p s).find? (fun m => m.id == noteId)
        with _ | note
      · simp [NoteDelete.destroy, NoteDelete.destroyTry, NoteDelete.get_object,
          handlerBoundary, Exc.message, hq, hf]
        exact envelopeOk_plain_error _ _
      · simp [NoteDelete.destroy, NoteDelete.destroyTry, NoteDelete.get_object,
          NoteDelete.superDestroy, handlerBoundary, deletedResponse, hq, hf]
        exact envelopeOk_success _ _ _
    · have hq2 : (p.is_staff || p.is_superuser) = false := by simpa using hq
      simp [NoteDelete.destroy, NoteDelete.destroyTry, handlerBoundary, hq2]
      exact envelopeOk_plain_error _ _
  · intro username password s
    by_cases h : (userValidationErrors username password s).isEmpty
    · simp only [CreateUserView.create, handlerBoundary, if_pos h]
      exact envelopeOk_success _ _ _
    · simp only [CreateUserView.create, handlerBoundary, if_neg h]
      exact envelopeOk_validation_error _ _

/-- C10: the delete view queryset is the whole note table for an elevated
principal and empty for anyone else, so for a non-elevated principal no
note at all is reachable through it, independently of the explicit 403
check of the destroy method. -/
theorem delete_queryset_by_role (p : Principal) (s : Store) :
    ((p.is_staff || p.is_superuser) = true →
      NoteDelete.get_queryset p s = s.notes)
    ∧ ((p.is_staff || p.is_superuser) = false →
      NoteDelete.get_queryset p s = []
      ∧ ∀ note : Note, note ∉ NoteDelete.get_queryset p s) := by
  constructor
  · intro h
    simp [NoteDelete.get_queryset, h]
  · intro h
    simp [NoteDelete.get_queryset, h]

end NotesApp
